import Mathlib

/-
Shallow embedding of MediaCrush's `mediacrush/files.py` (content-addressed
ingestion, processing-status resolution, compression accounting, deletion).

Byte strings are `List Nat` (each entry < 256); machine words are `Nat`
reduced mod 2^32 where Python's hash arithmetic wraps.  Fallible Python
expressions (IndexError on `rsplit('.',1)[1]`, OSError on `os.path.getsize`,
NameError on an undefined variable) are embedded with `Except PyErr`.
Collaborators that live outside `files.py` (the redis client and `_k`
namespacing from `database.py`, the `File` metadata object from
`objects.py`, the rate limiter, Flask's debug flag, `secure_ip`) are
modelled from the spec, as noted on each definition.
-/

set_option maxRecDepth 100000

inductive PyErr where
  | indexError
  | osError
  | nameError
  | keyError
  deriving DecidableEq, Repr

instance {e a : Type} [DecidableEq e] [DecidableEq a] : DecidableEq (Except e a) :=
  fun x y =>
    match x, y with
    | .error u, .error v =>
      if h : u = v then .isTrue (by rw [h]) else .isFalse (fun hc => h (by cases hc; rfl))
    | .error _, .ok _ => .isFalse (fun hc => Except.noConfusion hc)
    | .ok _, .error _ => .isFalse (fun hc => Except.noConfusion hc)
    | .ok u, .ok v =>
      if h : u = v then .isTrue (by rw [h]) else .isFalse (fun hc => h (by cases hc; rfl))

/-! ### Python string helpers used by files.py -/

/-- Python `%`-formatting restricted to the `%s` conversions appearing in
files.py: each `%s` in the pattern is replaced by the next argument;
inserted text is not rescanned. -/
def fmtAux : List Char → List String → List Char
  | [], _ => []
  | '%' :: 's' :: rest, a :: as => a.data ++ fmtAux rest as
  | '%' :: 's' :: rest, [] => '%' :: 's' :: fmtAux rest []
  | c :: rest, as => c :: fmtAux rest as

def pyFormat (pat : String) (args : List String) : String :=
  ⟨fmtAux pat.data args⟩

/-- Split a character list at its last `'.'`: Python `f.rsplit('.', 1)`
when a dot is present (`none` when there is no dot, where Python's
two-element indexing would raise IndexError). -/
def splitLastDot : List Char → Option (List Char × List Char)
  | [] => none
  | c :: rest =>
    match splitLastDot rest with
    | some (a, b) => some (c :: a, b)
    | none => if c = '.' then some ([], rest) else none

/-- Python `str.lower()` (ASCII range, which covers every extension the
code compares against). -/
def lowerStr (s : List Char) : List Char := s.map Char.toLower

/-- `extension = lambda f: f.rsplit('.', 1)[1].lower()` — the `[1]` index
raises IndexError when the filename has no dot. -/
def extension (f : String) : Except PyErr String :=
  match splitLastDot f.data with
  | some p => .ok ⟨lowerStr p.2⟩
  | none => .error .indexError

/-- Python `str.replace(a, b)` for one-character patterns. -/
def pyReplaceChar (a b : Char) (s : List Char) : List Char :=
  s.map (fun c => if c = a then b else c)

/-! ### MD5 (hashlib.md5), on bytes as `List Nat`, words as `Nat` mod 2^32 -/

def w32 : Nat := 4294967296

def not32 (a : Nat) : Nat := 4294967295 - a % w32

def rotl32 (x n : Nat) : Nat :=
  ((x % w32) <<< n) % w32 ||| ((x % w32) >>> (32 - n))

def md5K : List Nat := [
  0xd76aa478, 0xe8c7b756, 0x242070db, 0xc1bdceee,
  0xf57c0faf, 0x4787c62a, 0xa8304613, 0xfd469501,
  0x698098d8, 0x8b44f7af, 0xffff5bb1, 0x895cd7be,
  0x6b901122, 0xfd987193, 0xa679438e, 0x49b40821,
  0xf61e2562, 0xc040b340, 0x265e5a51, 0xe9b6c7aa,
  0xd62f105d, 0x02441453, 0xd8a1e681, 0xe7d3fbc8,
  0x21e1cde6, 0xc33707d6, 0xf4d50d87, 0x455a14ed,
  0xa9e3e905, 0xfcefa3f8, 0x676f02d9, 0x8d2a4c8a,
  0xfffa3942, 0x8771f681, 0x6d9d6122, 0xfde5380c,
  0xa4beea44, 0x4bdecfa9, 0xf6bb4b60, 0xbebfbc70,
  0x289b7ec6, 0xeaa127fa, 0xd4ef3085, 0x04881d05,
  0xd9d4d039, 0xe6db99e5, 0x1fa27cf8, 0xc4ac5665,
  0xf4292244, 0x432aff97, 0xab9423a7, 0xfc93a039,
  0x655b59c3, 0x8f0ccc92, 0xffeff47d, 0x85845dd1,
  0x6fa87e4f, 0xfe2ce6e0, 0xa3014314, 0x4e0811a1,
  0xf7537e82, 0xbd3af235, 0x2ad7d2bb, 0xeb86d391]

def md5S : List Nat := [
  7, 12, 17, 22, 7, 12, 17, 22, 7, 12, 17, 22, 7, 12, 17, 22,
  5, 9, 14, 20, 5, 9, 14, 20, 5, 9, 14, 20, 5, 9, 14, 20,
  4, 11, 16, 23, 4, 11, 16, 23, 4, 11, 16, 23, 4, 11, 16, 23,
  6, 10, 15, 21, 6, 10, 15, 21, 6, 10, 15, 21, 6, 10, 15, 21]

/-- Little-endian 32-bit words of a block. -/
def toWords : List Nat → List Nat
  | a :: b :: c :: d :: rest =>
    (a % 256 + (b % 256) * 256 + (c % 256) * 65536 + (d % 256) * 16777216) :: toWords rest
  | _ => []

def leBytes4 (n : Nat) : List Nat :=
  [n % 256, n / 256 % 256, n / 65536 % 256, n / 16777216 % 256]

def leBytes8 (n : Nat) : List Nat :=
  leBytes4 (n % w32) ++ leBytes4 (n / w32)

/-- MD5 padding: 0x80, zeros to 56 mod 64, then the bit length as 8
little-endian bytes. -/
def md5pad (msg : List Nat) : List Nat :=
  let zeros := (120 - (msg.length % 64 + 1)) % 64
  msg ++ 0x80 :: List.replicate zeros 0 ++ leBytes8 ((msg.length * 8) % 18446744073709551616)

def md5round (M : List Nat) (s : Nat × Nat × Nat × Nat) (i : Nat) :
    Nat × Nat × Nat × Nat :=
  let a := s.1
  let b := s.2.1
  let c := s.2.2.1
  let d := s.2.2.2
  let fg : Nat × Nat :=
    if i < 16 then ((b &&& c) ||| (not32 b &&& d), i)
    else if i < 32 then ((d &&& b) ||| (not32 d &&& c), (5 * i + 1) % 16)
    else if i < 48 then (b ^^^ c ^^^ d, (3 * i + 5) % 16)
    else (c ^^^ (b ||| not32 d), (7 * i) % 16)
  let f := (fg.1 + a + md5K.getD i 0 + M.getD fg.2 0) % w32
  (d, (b + rotl32 f (md5S.getD i 0)) % w32, b, c)

def md5block (blk : List Nat) (s : Nat × Nat × Nat × Nat) :
    Nat × Nat × Nat × Nat :=
  let M := toWords blk
  let t := (List.range 64).foldl (md5round M) s
  ((s.1 + t.1) % w32, (s.2.1 + t.2.1) % w32,
   (s.2.2.1 + t.2.2.1) % w32, (s.2.2.2 + t.2.2.2) % w32)

/-- Process `fuel` 64-byte blocks (structural recursion on the block count
so that the kernel can evaluate it). -/
def md5blocks : Nat → List Nat → Nat × Nat × Nat × Nat → Nat × Nat × Nat × Nat
  | 0, _, s => s
  | n + 1, msg, s => md5blocks n (msg.drop 64) (md5block (msg.take 64) s)

/-- `hashlib.md5(bytes).digest()`: the 16-byte MD5 digest. -/
def md5 (msg : List Nat) : List Nat :=
  let padded := md5pad msg
  let s := md5blocks (padded.length / 64) padded
    (0x67452301, 0xefcdab89, 0x98badcfe, 0x10325476)
  leBytes4 s.1 ++ leBytes4 s.2.1 ++ leBytes4 s.2.2.1 ++ leBytes4 s.2.2.2

/-! ### base64.b64encode and the identifier codec -/

def b64alphabet : List Char :=
  "ABCDEFGHIJKLMNOPQRSTUVWXYZabcdefghijklmnopqrstuvwxyz0123456789+/".data

def b64char (n : Nat) : Char := b64alphabet.getD n 'A'

/-- `base64.b64encode` (standard alphabet, `=` padding), as characters. -/
def b64encodeChars : List Nat → List Char
  | a :: b :: c :: rest =>
    let n := (a % 256) * 65536 + (b % 256) * 256 + c % 256
    b64char (n / 262144) :: b64char (n / 4096 % 64) ::
      b64char (n / 64 % 64) :: b64char (n % 64) :: b64encodeChars rest
  | [a, b] =>
    let n := (a % 256) * 65536 + (b % 256) * 256
    [b64char (n / 262144), b64char (n / 4096 % 64), b64char (n / 64 % 64), '=']
  | [a] =>
    let n := (a % 256) * 65536
    [b64char (n / 262144), b64char (n / 4096 % 64), '=', '=']
  | [] => []

/-- `to_id = lambda h: base64.b64encode(h)[:12].replace('/', '_').replace('+', '-')`. -/
def to_id (h : List Nat) : String :=
  ⟨pyReplaceChar '+' '-' (pyReplaceChar '/' '_' ((b64encodeChars h).take 12))⟩

/-! ### Extension allow-lists and the content-type processing table -/

def VIDEO_EXTENSIONS : List String := ["gif", "ogv", "mp4", "webm"]

def AUDIO_EXTENSIONS : List String := ["mp3", "ogg", "oga"]

def EXTENSIONS : List String :=
  ["png", "jpg", "jpe", "jpeg", "svg"] ++ VIDEO_EXTENSIONS ++ AUDIO_EXTENSIONS

structure ProcessingSpec where
  formats : List String
  extras : List String
  time : Option Nat
  deriving DecidableEq, Repr

/-- The `processing_needed` table, keyed (as in the source) by MIME type
strings; the `processor` object carried by the `image/gif` entry has no
observable role in files.py and is omitted. -/
def processing_needed : List (String × ProcessingSpec) := [
  ("image/gif", ⟨["video/mp4", "video/ogv", "video/webm"], ["image/png"], none⟩),
  ("video/mp4", ⟨["video/webm", "video/ogv"], ["image/png"], some 600⟩),
  ("video/webm", ⟨["video/mp4", "video/ogv"], ["image/png"], some 600⟩),
  ("video/ogv", ⟨["video/mp4", "video/webm"], ["image/png"], some 600⟩),
  ("image/jpeg", ⟨[], [], some 5⟩),
  ("image/png", ⟨[], [], some 60⟩),
  ("image/svg", ⟨[], [], some 5⟩),
  ("audio/mp3", ⟨["audio/ogg"], [], some 120⟩),
  ("audio/ogg", ⟨["audio/oga", "audio/mp3"], [], some 120⟩)]

/-- Python `key in processing_needed` / `processing_needed[key]`. -/
def pnLookup (k : String) : Option ProcessingSpec :=
  (processing_needed.find? (fun p => p.1 = k)).map (fun p => p.2)

/-- `allowed_file(filename) = '.' in filename and extension(filename) in EXTENSIONS`;
the `and` short-circuits, so `extension` is only evaluated when a dot is
present. -/
def allowed_file (filename : String) : Except PyErr Bool :=
  if '.' ∈ filename.data then do
    let e ← extension filename
    pure (decide (e ∈ EXTENSIONS))
  else pure false

/-! ### The byte source and the shared system state -/

/-- A seekable byte source (werkzeug upload stream or `URLFile`): the full
byte content plus the current cursor position, and the declared content
type (`None` or a string, where Python treats `""` as falsy too). -/
structure ByteSource where
  content : List Nat
  pos : Nat
  contentType : Option String
  deriving DecidableEq, Repr

def seek0 (f : ByteSource) : ByteSource := { f with pos := 0 }

/-- `f.read()`: everything from the cursor to the end. -/
def readAll (f : ByteSource) : List Nat := f.content.drop f.pos

/-- `get_hash(f) = f.seek(0); md5(f.read()).digest()`. -/
def get_hash (f : ByteSource) : List Nat := md5 (readAll (seek0 f))

/-- `file_length(f)`: seek to the end, `tell()`, seek back to 0. -/
def file_length (f : ByteSource) : Nat := f.content.length

/-- The `File` metadata object of objects.py (fields as in files.py:
`hash`, `compression`, `original`, `ip`). -/
structure MediaItem where
  hash : String
  compression : Nat
  original : String
  ip : String
  deriving DecidableEq, Repr

/-- The shared state observable from files.py: blob storage (path ↦ bytes),
the MetadataStore records (identifier ↦ item), the redis key-value pairs,
the `gifqueue` list, and the modelled collaborators (rate-limiter usage
counter and limit predicate, Flask debug flag, caller address). -/
structure SysState where
  storage : List (String × List Nat)
  records : List (String × MediaItem)
  kv : List (String × String)
  queue : List String
  rlUsage : Nat
  rlExceeded : Nat → Bool
  debug : Bool
  callerIp : String

/-! ### Storage, metadata and redis primitives -/

/-- Modelled from the spec: `_cfg("storage_folder")`, the configured
storage root (config.py is not under src/). -/
def storageFolder : String := "storage"

/-- `file_storage(f) = os.path.join(_cfg("storage_folder"), f)`. -/
def file_storage (f : String) : String := storageFolder ++ "/" ++ f

def storageLookup (st : List (String × List Nat)) (path : String) : Option (List Nat) :=
  (st.find? (fun p => p.1 = path)).map (fun p => p.2)

/-- `os.path.exists(path)` over the blob store. -/
def storageExists (st : List (String × List Nat)) (path : String) : Bool :=
  (storageLookup st path).isSome

/-- `f.save(path)` / `open(path, "w")`: (over)write the blob at `path`. -/
def storagePut (st : List (String × List Nat)) (path : String) (bytes : List Nat) :
    List (String × List Nat) :=
  (path, bytes) :: st.filter (fun p => p.1 ≠ path)

/-- `os.path.getsize(path)`: byte size, OSError when absent. -/
def osGetsize (st : List (String × List Nat)) (path : String) : Except PyErr Nat :=
  match storageLookup st path with
  | some b => .ok b.length
  | none => .error .osError

/-- Modelled from the spec: MetadataStore `loadByIdentifier`
(`File.from_hash`; objects.py is not under src/). -/
def recordLookup (rs : List (String × MediaItem)) (id : String) : Option MediaItem :=
  (rs.find? (fun p => p.1 = id)).map (fun p => p.2)

/-- Modelled from the spec: MetadataStore `save(item)` keyed by identifier
(`File.save`; objects.py is not under src/). -/
def recordSave (rs : List (String × MediaItem)) (id : String) (it : MediaItem) :
    List (String × MediaItem) :=
  (id, it) :: rs.filter (fun p => p.1 ≠ id)

/-- Modelled from the spec: MetadataStore `delete(item)` (`File.delete`;
objects.py is not under src/). -/
def recordDel (rs : List (String × MediaItem)) (id : String) :
    List (String × MediaItem) :=
  rs.filter (fun p => p.1 ≠ id)

/-- Modelled from the spec: the redis namespace used by `_k` (database.py
is not under src/); "all keys are namespaced under an application prefix".
The prefix is an ordinary name with no `%` format specifier in it. -/
def redisNs : String := "mediacrush"

/-- Modelled from the spec: `_k(s)` prepends the application namespace. -/
def _k (s : String) : String := redisNs ++ "." ++ s

/-- `r.get(key)`. -/
def kvGet (kv : List (String × String)) (k : String) : Option String :=
  (kv.find? (fun p => p.1 = k)).map (fun p => p.2)

/-- `r.exists(key)`. -/
def kvExists (kv : List (String × String)) (k : String) : Bool :=
  (kvGet kv k).isSome

/-- `r.set(key, v)`. -/
def kvSet (kv : List (String × String)) (k v : String) : List (String × String) :=
  (k, v) :: kv.filter (fun p => p.1 ≠ k)

/-- `r.delete(key)`. -/
def kvDel (kv : List (String × String)) (k : String) : List (String × String) :=
  kv.filter (fun p => p.1 ≠ k)

/-- `r.lpush(key, v)` on the job-queue list. -/
def lpush (q : List String) (v : String) : List String := v :: q

/-! ### The ingestion pipeline -/

/-- Modelled from the spec: Python stdlib `mimetypes.guess_extension`
("look up a canonical extension for the MIME type; if none is registered,
fall back"); a finite fragment of the system table. The claims below
quantify over the resulting filename, so the table's exact content is not
load-bearing. -/
def mimeTable : List (String × String) := [
  ("image/gif", ".gif"),
  ("image/png", ".png"),
  ("image/jpeg", ".jpe"),
  ("image/svg+xml", ".svg"),
  ("video/mp4", ".mp4"),
  ("video/webm", ".webm"),
  ("audio/mpeg", ".mp3"),
  ("audio/ogg", ".ogg")]

def guess_extension (ct : String) : Option String :=
  (mimeTable.find? (fun p => p.1 = ct)).map (fun p => p.2)

/-- The first block of `upload`: when a truthy content type other than
`application/octet-stream` is declared, append `mimetypes.guess_extension`'s
answer, falling back to `"." + content_type.split("/")[1]` (IndexError when
the declared type has no slash). -/
def resultingFilename (ct : Option String) (filename : String) : Except PyErr String :=
  match ct with
  | none => .ok filename
  | some c =>
    if c ≠ "" ∧ c ≠ "application/octet-stream" then
      match guess_extension c with
      | some e => .ok (filename ++ e)
      | none =>
        match c.splitOn "/" with
        | _ :: x :: _ => .ok (filename ++ "." ++ x)
        | _ => .error .indexError
    else .ok filename

inductive UploadResult where
  | single (s : String)
  | pair (s : String) (code : Nat)
  deriving DecidableEq, Repr

/-- The tail of `upload` after the rate-limit block: hash, dedup check
against the blob store, persist, create metadata, enqueue, lock. -/
def uploadStore (st : SysState) (f : ByteSource) (filename : String) :
    Except PyErr (UploadResult × SysState) :=
  let h := get_hash f
  let identifier := to_id h
  match extension filename with
  | .error e => .error e
  | .ok ext =>
    let filename := pyFormat "%s.%s" [identifier, ext]
    let path := file_storage filename
    if storageExists st.storage path then
      .ok (.pair identifier 409, st)
    else
      -- f.seek(0); f.save(path): the full content is written
      let st1 : SysState := { st with storage := storagePut st.storage path (readAll (seek0 f)) }
      match osGetsize st1.storage path with
      | .error e => .error e
      | .ok size =>
        let item : MediaItem := ⟨identifier, size, filename, st1.callerIp⟩
        let st2 : SysState := { st1 with records := recordSave st1.records identifier item }
        let st3 : SysState := { st2 with queue := lpush st2.queue identifier }
        let st4 : SysState := { st3 with kv := kvSet st3.kv (_k (pyFormat "%s.lock" [identifier])) "1" }
        .ok (.single identifier, st4)

/-- `upload(f, filename)`. The byte-source object itself is truthy, so the
guard `if f and allowed_file(filename)` reduces to `allowed_file`. The
rate-limit collaborators are modelled from the spec (ratelimit.py is not
under src/): `rate_limit_update(n)` adds `n` to the recorded usage and
`rate_limit_exceeded()` applies the configured predicate to the recorded
usage; `current_app.debug` is the debug flag. -/
def upload (st : SysState) (f : ByteSource) (filename0 : String) :
    Except PyErr (UploadResult × SysState) :=
  match resultingFilename f.contentType filename0 with
  | .error e => .error e
  | .ok filename =>
    match allowed_file filename with
    | .error e => .error e
    | .ok false => .ok (.pair "no" 415, st)
    | .ok true =>
      if st.debug then uploadStore st f filename
      else
        let st1 : SysState := { st with rlUsage := st.rlUsage + file_length f }
        if st1.rlExceeded st1.rlUsage then .ok (.pair "ratelimit" 420, st1)
        else uploadStore st1 f filename

/-! ### Compression accounting -/

/-- `round(x, 2)` on Python floats, idealised over ℚ (round half away from
zero for the nonnegative ratios arising here). -/
def round2 (q : ℚ) : ℚ := (⌊q * 100 + 1 / 2⌋ : ℚ) / 100

/-- `compression_rate(f)`. `File.from_hash` is modelled from the spec as
the MetadataStore lookup (objects.py is not under src/). Note the source
looks the *extension* of the original filename up in `processing_needed`,
whose keys are MIME types. The float arithmetic of the final ratio is
idealised over ℚ (division by a zero `original_size`, which would raise
ZeroDivisionError in Python, yields 0 here; no theorem below reaches that
arithmetic). -/
def compression_rate (st : SysState) (f : String) : Except PyErr ℚ :=
  match recordLookup st.records f with
  | none => .error .keyError
  | some f_original =>
    match extension f_original.original with
    | .error e => .error e
    | .ok ext =>
      match pnLookup ext with
      | none => .ok 0
      | some spec =>
        if spec.formats.length = 0 then .ok 0
        else
          let original_size := f_original.compression
          match osGetsize st.storage (file_storage f_original.original) with
          | .error e => .error e
          | .ok s0 =>
            let minsize := min original_size s0
            let minsize := spec.formats.foldl (fun m f_ext =>
              match storageLookup st.storage (file_storage (pyFormat "%s.%s" [f, f_ext])) with
              | some b => min m b.length
              | none => m) minsize
            let x : ℚ := (minsize : ℚ) / (original_size : ℚ)
            .ok (round2 (1 / x))

/-! ### Deletion -/

/-- The unlink target inside `delete_file_storage`: the source reads
`os.unlink(file_storage(f))`, but no name `f` is bound in that scope, so
evaluating the argument raises NameError before any file is touched. -/
def unlinkTarget : Except PyErr String := .error .nameError

/-- `delete_file_storage(path)`: the `os.unlink` call sits under a bare
`except:` that prints and continues, so the NameError from the undefined
name `f` is swallowed and the blob store is left unchanged. -/
def delete_file_storage (st : SysState) (path : String) : SysState :=
  match unlinkTarget with
  | .ok p => { st with storage := st.storage.filter (fun q => q.1 ≠ p) }
  | .error _ => st

/-- `delete_file(f)`: best-effort storage deletions, then the metadata
record (`f.delete()` is modelled from the spec as the MetadataStore
delete). -/
def delete_file (st : SysState) (item : MediaItem) : Except PyErr SysState :=
  match extension item.original with
  | .error e => .error e
  | .ok ext =>
    let st1 := delete_file_storage st item.original
    let st2 :=
      match pnLookup ext with
      | some spec =>
        spec.formats.foldl (fun s f_ext =>
          delete_file_storage s (pyFormat "%s.%s" [item.hash, f_ext])) st1
      | none => st1
    .ok { st2 with records := recordDel st2.records item.hash }

/-! ### Processing status -/

/-- `processing_status(id)`: lock present ⇒ "processing"; else a destructive
read of the error marker; else "done". The read key is
`_k("%s.error" % filename)` while the deleted key is
`_k("%s.error") % filename`. The `r.get` under the `r.exists` guard is
always present in this sequential model; its value is the status
returned. -/
def processing_status (st : SysState) (id : String) : String × SysState :=
  let filename := id
  if kvExists st.kv (_k (pyFormat "%s.lock" [filename])) then
    ("processing", st)
  else
    if kvExists st.kv (_k (pyFormat "%s.error" [filename])) then
      let failure_type := (kvGet st.kv (_k (pyFormat "%s.error" [filename]))).getD ""
      (failure_type, { st with kv := kvDel st.kv (pyFormat (_k "%s.error") [filename]) })
    else
      ("done", st)

/-! ### Spec-side definitions (for comparison with the source) -/

/-- The allowed-extension set exactly as the specification words it:
{png, jpg, jpeg, svg, gif, ogv, mp4, webm, mp3, ogg, oga}. -/
def specExtensions : List String :=
  ["png", "jpg", "jpeg", "svg", "gif", "ogv", "mp4", "webm", "mp3", "ogg", "oga"]

/-- The state as it stands after `upload`'s rate-limit block: unchanged in
debug mode, usage bumped by the source length otherwise. -/
def rlStep (st : SysState) (f : ByteSource) : SysState :=
  if st.debug = true then st
  else { st with rlUsage := st.rlUsage + file_length f }

/-- Projection used to state concrete scenarios: the returned value of an
`upload` call, when no exception was raised. -/
def uploadOutcome (r : Except PyErr (UploadResult × SysState)) : Option UploadResult :=
  r.toOption.map (fun p => p.1)

/-- Projection used to state concrete scenarios: the state after an
`upload` call (falling back to `d` on an exception). -/
def stAfter (r : Except PyErr (UploadResult × SysState)) (d : SysState) : SysState :=
  (r.toOption.map (fun p => p.2)).getD d

/-! ### Concrete scenario data -/

/-- Empty shared state with the debug flag set (rate limiting skipped). -/
def emptyDebugState : SysState :=
  ⟨[], [], [], [], 0, fun _ => false, true, "127.0.0.1"⟩

/-- A two-byte source (the ASCII bytes of "hi") with no declared content
type; `to_id (md5 [104, 105]) = "SfaKXIST7CwL"`. -/
def srcHi : ByteSource := ⟨[104, 105], 0, none⟩

/-- Ingest `srcHi` as `a.gif`, then re-ingest the same bytes as `a.png`. -/
def c5st1 : SysState := stAfter (upload emptyDebugState srcHi "a.gif") emptyDebugState

def c5st2 : SysState := stAfter (upload c5st1 srcHi "a.png") c5st1

/-- State in which the storage filename computed for `srcHi` + extension
`gif` already exists (the duplicate-ingestion scenario). -/
def c6st : SysState :=
  ⟨[("storage/SfaKXIST7CwL.gif", [104, 105])], [], [], [], 0, fun _ => false, true, "127.0.0.1"⟩

/-- Worker-failure scenario: no lock marker, error marker holding
"transcode-failed". -/
def c3st : SysState :=
  ⟨[], [], [("mediacrush.abc.error", "transcode-failed")], [], 0, fun _ => false, true, "127.0.0.1"⟩

/-- The spec's compression scenario: a stored GIF of 1,000,000 bytes whose
MP4 (400,000 bytes) and OGV (600,000 bytes) renditions have been
produced. -/
def c1item : MediaItem := ⟨"gifid", 1000000, "gifid.gif", "127.0.0.1"⟩

def c1st : SysState :=
  ⟨[("storage/gifid.gif", List.replicate 1000000 0),
    ("storage/gifid.mp4", List.replicate 400000 0),
    ("storage/gifid.ogv", List.replicate 600000 0)],
   [("gifid", c1item)], [], [], 0, fun _ => false, false, "127.0.0.1"⟩

/-- Deletion scenario: one stored original plus its metadata record. -/
def c2item : MediaItem := ⟨"abc", 3, "abc.png", "127.0.0.1"⟩

def c2st : SysState :=
  ⟨[("storage/abc.png", [1, 2, 3])], [("abc", c2item)], [], [], 0,
   fun _ => false, false, "127.0.0.1"⟩

/-- Rate-limit scenario: production mode with a 1-byte quota, so the
two-byte `srcHi` exceeds it as soon as its length is recorded. -/
def c8st : SysState :=
  ⟨[], [], [], [], 0, fun n => decide (n ≥ 2), false, "127.0.0.1"⟩

/-! ### Helper lemmas -/

theorem splitLastDot_isSome_of_mem {l : List Char} (h : '.' ∈ l) :
    (splitLastDot l).isSome := by
  induction l with
  | nil => cases h
  | cons c rest ih =>
    rw [List.mem_cons] at h
    unfold splitLastDot
    rcases hsp : splitLastDot rest with - | p
    · rcases h with h | h
      · simp [h.symm]
      · have := ih h
        rw [hsp] at this
        cases this
    · simp

theorem mem_of_splitLastDot_some {l : List Char} {p : List Char × List Char}
    (h : splitLastDot l = some p) : '.' ∈ l := by
  induction l generalizing p with
  | nil => cases h
  | cons c rest ih =>
    unfold splitLastDot at h
    rcases hsp : splitLastDot rest with - | q
    · rw [hsp] at h
      by_cases hc : c = '.'
      · simp [hc]
      · simp [hc] at h
    · rw [hsp] at h
      exact List.mem_cons_of_mem c (ih hsp)

theorem extension_ok_of_mem {filename : String} (h : '.' ∈ filename.data) :
    ∃ e, extension filename = .ok e := by
  have hs := splitLastDot_isSome_of_mem h
  unfold extension
  rcases hsp : splitLastDot filename.data with - | p
  · rw [hsp] at hs; cases hs
  · exact ⟨_, rfl⟩

theorem mem_of_extension_ok {filename : String} {e : String}
    (h : extension filename = .ok e) : '.' ∈ filename.data := by
  unfold extension at h
  rcases hsp : splitLastDot filename.data with - | p
  · rw [hsp] at h; cases h
  · exact mem_of_splitLastDot_some hsp

theorem allowed_file_true_of {filename e : String}
    (hext : extension filename = .ok e) (he : e ∈ EXTENSIONS) :
    allowed_file filename = .ok true := by
  unfold allowed_file
  rw [if_pos (mem_of_extension_ok hext), hext]
  simp [he]

theorem allowed_file_false_of_not_mem {filename e : String}
    (hext : extension filename = .ok e) (he : e ∉ EXTENSIONS) :
    allowed_file filename = .ok false := by
  unfold allowed_file
  rw [if_pos (mem_of_extension_ok hext), hext]
  simp [he]

theorem allowed_file_false_of_no_dot {filename : String}
    (h : '.' ∉ filename.data) : allowed_file filename = .ok false := by
  unfold allowed_file
  rw [if_neg h]
  rfl

/-- On a resulting filename that `allowed_file` rejects, `upload` returns
the `("no", 415)` pair with the state untouched. -/
theorem upload_of_not_allowed {st : SysState} {f : ByteSource} {fn filename : String}
    (hres : resultingFilename f.contentType fn = .ok filename)
    (hallow : allowed_file filename = .ok false) :
    upload st f fn = .ok (.pair "no" 415, st) := by
  simp [upload, hres, hallow]

theorem kvGet_kvDel_self (kv : List (String × String)) (k : String) :
    kvGet (kvDel kv k) k = none := by
  unfold kvGet kvDel
  rw [List.find?_eq_none.mpr]
  · rfl
  · intro x hx
    have := (List.mem_filter.mp hx).2
    simpa using this

theorem kvGet_none_of_kvDel {kv : List (String × String)} {k k0 : String}
    (h : kvGet kv k = none) : kvGet (kvDel kv k0) k = none := by
  unfold kvGet at h
  unfold kvGet kvDel
  rcases hf : List.find? (fun p => decide (p.1 = k)) kv with - | p
  · rw [List.find?_eq_none.mpr]
    · rfl
    · intro x hx
      exact List.find?_eq_none.mp hf x (List.mem_filter.mp hx).1
  · rw [hf] at h
    cases h

/-- The error-marker key that `processing_status` deletes
(`_k("%s.error") % filename`) is the key it read
(`_k("%s.error" % filename)`): the namespace prefix contains no `%s`, and
one `%s` substitution step commutes with prefixing by it. -/
theorem errorKey_delete_eq (id : String) :
    pyFormat (_k "%s.error") [id] = _k (pyFormat "%s.error" [id]) := rfl

theorem storageLookup_storagePut_self (st : List (String × List Nat))
    (path : String) (b : List Nat) :
    storageLookup (storagePut st path b) path = some b := by
  unfold storageLookup storagePut
  simp [List.find?_cons]

theorem foldl_skip {α β : Type} (g : β → α → β) (l : List α) (s : β)
    (hg : ∀ t x, g t x = t) : l.foldl g s = s := by
  induction l generalizing s with
  | nil => rfl
  | cons x xs ih => rw [List.foldl_cons, hg, ih]

/-- On the duplicate path (the computed storage filename already exists),
`uploadStore` returns the identifier with 409 and the state unchanged. -/
theorem uploadStore_dup {st : SysState} {f : ByteSource} {filename e : String}
    (hext : extension filename = .ok e)
    (hdup : storageExists st.storage
      (file_storage (pyFormat "%s.%s" [to_id (get_hash f), e])) = true) :
    uploadStore st f filename = .ok (.pair (to_id (get_hash f)) 409, st) := by
  unfold uploadStore
  rw [hext]
  simp only [hdup, if_true]

/-- On the fresh path, `uploadStore` persists the blob, saves a fresh
metadata record, enqueues the identifier and sets the lock. -/
theorem uploadStore_fresh {st : SysState} {f : ByteSource} {filename e : String}
    (hext : extension filename = .ok e)
    (habs : storageExists st.storage
      (file_storage (pyFormat "%s.%s" [to_id (get_hash f), e])) = false) :
    uploadStore st f filename = .ok (.single (to_id (get_hash f)),
      { st with
        storage := storagePut st.storage
          (file_storage (pyFormat "%s.%s" [to_id (get_hash f), e])) (readAll (seek0 f)),
        records := recordSave st.records (to_id (get_hash f))
          ⟨to_id (get_hash f), (readAll (seek0 f)).length,
            pyFormat "%s.%s" [to_id (get_hash f), e], st.callerIp⟩,
        queue := lpush st.queue (to_id (get_hash f)),
        kv := kvSet st.kv (_k (pyFormat "%s.lock" [to_id (get_hash f)])) "1" }) := by
  unfold uploadStore
  rw [hext]
  simp only [habs, if_false, Bool.false_eq_true]
  unfold osGetsize
  rw [storageLookup_storagePut_self]

/-- `uploadStore` reads neither the rate-limit predicate nor the usage
counter; swapping the predicate only swaps it in the carried state. -/
theorem uploadStore_rlExceeded_swap (st : SysState) (f : ByteSource)
    (filename : String) (g : Nat → Bool) :
    uploadStore { st with rlExceeded := g } f filename =
      (uploadStore st f filename).map (fun p => (p.1, { p.2 with rlExceeded := g })) := by
  unfold uploadStore
  rcases hext : extension filename with e | e
  · rfl
  · simp only
    by_cases hs : storageExists st.storage
        (file_storage (pyFormat "%s.%s" [to_id (get_hash f), e])) = true
    · simp only [hs, if_true, Except.map]
    · simp only [hs, if_false]
      rcases hg : osGetsize (storagePut st.storage
          (file_storage (pyFormat "%s.%s" [to_id (get_hash f), e])) (readAll (seek0 f)))
          (file_storage (pyFormat "%s.%s" [to_id (get_hash f), e])) with x | x
      · simp [hg, Except.map]
      · simp [hg, Except.map]

/-- `uploadStore` leaves the recorded rate-limit usage unchanged. -/
theorem uploadStore_rlUsage_eq {st : SysState} {f : ByteSource} {filename : String}
    {p : UploadResult × SysState} (h : uploadStore st f filename = .ok p) :
    p.2.rlUsage = st.rlUsage := by
  unfold uploadStore at h
  rcases hext : extension filename with e | e
  · rw [hext] at h; cases h
  · rw [hext] at h
    simp only at h
    by_cases hs : storageExists st.storage
        (file_storage (pyFormat "%s.%s" [to_id (get_hash f), e])) = true
    · rw [if_pos hs] at h
      cases h
      rfl
    · rw [if_neg hs] at h
      rcases hg : osGetsize (storagePut st.storage
          (file_storage (pyFormat "%s.%s" [to_id (get_hash f), e])) (readAll (seek0 f)))
          (file_storage (pyFormat "%s.%s" [to_id (get_hash f), e])) with x | x
      · rw [hg] at h; cases h
      · rw [hg] at h
        cases h
        rfl

theorem rlStep_storage (st : SysState) (f : ByteSource) :
    (rlStep st f).storage = st.storage := by
  unfold rlStep; split <;> rfl

theorem rlStep_records (st : SysState) (f : ByteSource) :
    (rlStep st f).records = st.records := by
  unfold rlStep; split <;> rfl

theorem rlStep_queue (st : SysState) (f : ByteSource) :
    (rlStep st f).queue = st.queue := by
  unfold rlStep; split <;> rfl

theorem rlStep_kv (st : SysState) (f : ByteSource) :
    (rlStep st f).kv = st.kv := by
  unfold rlStep; split <;> rfl

theorem rlStep_callerIp (st : SysState) (f : ByteSource) :
    (rlStep st f).callerIp = st.callerIp := by
  unfold rlStep; split <;> rfl

/-- When the filename is allowed and the rate limit does not trip, `upload`
proceeds to the storage phase with the post-rate-limit state. -/
theorem upload_pass {st : SysState} {f : ByteSource} {fn filename : String}
    (hres : resultingFilename f.contentType fn = .ok filename)
    (hallow : allowed_file filename = .ok true)
    (hrl : st.debug = true ∨ st.rlExceeded (st.rlUsage + file_length f) = false) :
    upload st f fn = uploadStore (rlStep st f) f filename := by
  simp only [upload, hres, hallow]
  rcases hdeb : st.debug with - | -
  · rcases hrl with hrl | hrl
    · rw [hdeb] at hrl; cases hrl
    · simp [rlStep, hdeb, hrl]
  · simp [rlStep, hdeb]

theorem recordLookup_recordSave_self (rs : List (String × MediaItem))
    (id : String) (it : MediaItem) :
    recordLookup (recordSave rs id it) id = some it := by
  simp [recordLookup, recordSave, List.find?_cons]

theorem replace_urlsafe (l : List Char) :
    '/' ∉ pyReplaceChar '+' '-' (pyReplaceChar '/' '_' l) ∧
    '+' ∉ pyReplaceChar '+' '-' (pyReplaceChar '/' '_' l) := by
  constructor <;>
  · intro hmem
    simp only [pyReplaceChar, List.map_map, List.mem_map, Function.comp] at hmem
    obtain ⟨x, -, hx⟩ := hmem
    split_ifs at hx <;> simp_all

/-! ### Claims -/

/-- C10: on an input whose resulting filename contains no `'.'`, `upload`
returns the ("no", 415) rejection with the state untouched, and does not
raise, even though the `extension` helper is partial (IndexError) exactly
on such filenames: `allowed_file`'s dot check short-circuits before the
index access. -/
theorem C10_no_dot_rejected_without_raising (st : SysState) (f : ByteSource)
    (fn filename : String)
    (hres : resultingFilename f.contentType fn = .ok filename)
    (hdot : '.' ∉ filename.data) :
    upload st f fn = .ok (.pair "no" 415, st) ∧
      extension filename = .error .indexError := by
  refine ⟨upload_of_not_allowed hres (allowed_file_false_of_no_dot hdot), ?_⟩
  unfold extension
  rcases hsp : splitLastDot filename.data with - | p
  · rfl
  · exact absurd (mem_of_splitLastDot_some hsp) hdot

/-- Witness for C10 at the concrete input `"noext"` with no declared
content type. -/
theorem C10_witness :
    resultingFilename srcHi.contentType "noext" = .ok "noext" ∧
      '.' ∉ "noext".data ∧
      (upload emptyDebugState srcHi "noext" = .ok (.pair "no" 415, emptyDebugState) ∧
        extension "noext" = .error .indexError) :=
  ⟨by decide, by decide,
    C10_no_dot_rejected_without_raising emptyDebugState srcHi "noext" "noext"
      (by decide) (by decide)⟩

/-- C7: on an input whose resulting filename has an extension outside the
code's allow-list, `upload` returns ("no", 415) and hands back the input
state unchanged (no storage, metadata, queue, or marker mutation). -/
theorem C7_unsupported_leaves_state_unchanged (st : SysState) (f : ByteSource)
    (fn filename e : String)
    (hres : resultingFilename f.contentType fn = .ok filename)
    (hext : extension filename = .ok e)
    (hne : e ∉ EXTENSIONS) :
    upload st f fn = .ok (.pair "no" 415, st) :=
  upload_of_not_allowed hres (allowed_file_false_of_not_mem hext hne)

/-- Witness for C7 at the concrete input `"a.exe"`. -/
theorem C7_witness :
    resultingFilename srcHi.contentType "a.exe" = .ok "a.exe" ∧
      extension "a.exe" = .ok "exe" ∧ "exe" ∉ EXTENSIONS ∧
      upload emptyDebugState srcHi "a.exe" = .ok (.pair "no" 415, emptyDebugState) :=
  ⟨by decide, by decide, by decide,
    C7_unsupported_leaves_state_unchanged emptyDebugState srcHi "a.exe" "a.exe" "exe"
      (by decide) (by decide) (by decide)⟩

/-- C4 counterexample: the claim's allowed set omits `jpe`, yet the code's
allow-list contains it: uploading `a.jpe` is accepted (a bare identifier is
returned, not ("no", 415)). -/
theorem C4_counterexample :
    extension "a.jpe" = .ok "jpe" ∧ "jpe" ∉ specExtensions ∧
      uploadOutcome (upload emptyDebugState srcHi "a.jpe") =
        some (.single "SfaKXIST7CwL") :=
  ⟨by decide, by decide, by decide⟩

/-- C4 (amended): the allowed set additionally contains `jpe`; any
resulting filename whose lowercased extension lies outside
{png, jpg, jpe, jpeg, svg, gif, ogv, mp4, webm, mp3, ogg, oga} is rejected
with ("no", 415). -/
theorem C4_allowlist_with_jpe :
    EXTENSIONS =
      ["png", "jpg", "jpe", "jpeg", "svg", "gif", "ogv", "mp4", "webm",
        "mp3", "ogg", "oga"] ∧
    (∀ (st : SysState) (f : ByteSource) (fn filename e : String),
      resultingFilename f.contentType fn = .ok filename →
      extension filename = .ok e →
      e ∉ ["png", "jpg", "jpe", "jpeg", "svg", "gif", "ogv", "mp4", "webm",
        "mp3", "ogg", "oga"] →
      upload st f fn = .ok (.pair "no" 415, st)) := by
  refine ⟨by decide, fun st f fn filename e hres hext hne => ?_⟩
  refine upload_of_not_allowed hres (allowed_file_false_of_not_mem hext ?_)
  rw [show EXTENSIONS = ["png", "jpg", "jpe", "jpeg", "svg", "gif", "ogv",
    "mp4", "webm", "mp3", "ogg", "oga"] from by decide]
  exact hne

/-- Witness for C4 (amended) at the concrete input `"a.tiff"` with no
declared content type. -/
theorem C4_witness :
    resultingFilename srcHi.contentType "a.tiff" = .ok "a.tiff" ∧
      extension "a.tiff" = .ok "tiff" ∧
      "tiff" ∉ ["png", "jpg", "jpe", "jpeg", "svg", "gif", "ogv", "mp4",
        "webm", "mp3", "ogg", "oga"] ∧
      upload emptyDebugState srcHi "a.tiff" = .ok (.pair "no" 415, emptyDebugState) :=
  ⟨by decide, by decide, by decide,
    C4_allowlist_with_jpe.2 emptyDebugState srcHi "a.tiff" "a.tiff" "tiff"
      (by decide) (by decide) (by decide)⟩

/-- C9: the identifier is a pure function of the byte content (cursor and
declared content type do not matter), equals the first 12 characters of
the base64 encoding of the digest with '/'→'_' and '+'→'-', never contains
'/' or '+', and the content hash is 128-bit (16 bytes). -/
theorem C9_identifier_codec :
    (∀ (content : List Nat) (p q : Nat) (ct ct' : Option String),
      to_id (get_hash ⟨content, p, ct⟩) = to_id (get_hash ⟨content, q, ct'⟩)) ∧
    (∀ h : List Nat, to_id h =
      ⟨(pyReplaceChar '+' '-' (pyReplaceChar '/' '_' (b64encodeChars h))).take 12⟩) ∧
    (∀ h : List Nat, '/' ∉ (to_id h).data ∧ '+' ∉ (to_id h).data) ∧
    (∀ content : List Nat, (md5 content).length = 16) := by
  refine ⟨fun content p q ct ct' => rfl, fun h => ?_, fun h => replace_urlsafe _,
    fun content => ?_⟩
  · show String.mk _ = String.mk _
    simp [pyReplaceChar, List.map_take]
  · simp [md5, leBytes4]

/-- C3: with the lock marker absent and the error marker holding
"transcode-failed", the first `processing_status` call returns
"transcode-failed" and consumes the marker, so the immediately following
call returns "done". -/
theorem C3_error_marker_consumed_once (st : SysState) (id : String)
    (hlock : kvGet st.kv (_k (pyFormat "%s.lock" [id])) = none)
    (herr : kvGet st.kv (_k (pyFormat "%s.error" [id])) = some "transcode-failed") :
    (processing_status st id).1 = "transcode-failed" ∧
      (processing_status (processing_status st id).2 id).1 = "done" := by
  have hnl : kvExists st.kv (_k (pyFormat "%s.lock" [id])) = false := by
    unfold kvExists; rw [hlock]; rfl
  have hex : kvExists st.kv (_k (pyFormat "%s.error" [id])) = true := by
    unfold kvExists; rw [herr]; rfl
  have hst : processing_status st id = ("transcode-failed",
      { st with kv := kvDel st.kv (pyFormat (_k "%s.error") [id]) }) := by
    unfold processing_status
    simp [hnl, hex, herr]
  refine ⟨by rw [hst], ?_⟩
  rw [hst]
  have h1 : kvExists (kvDel st.kv (pyFormat (_k "%s.error") [id]))
      (_k (pyFormat "%s.lock" [id])) = false := by
    unfold kvExists
    rw [kvGet_none_of_kvDel hlock]
    rfl
  have h2 : kvExists (kvDel st.kv (pyFormat (_k "%s.error") [id]))
      (_k (pyFormat "%s.error" [id])) = false := by
    unfold kvExists
    rw [show kvGet (kvDel st.kv (pyFormat (_k "%s.error") [id]))
      (_k (pyFormat "%s.error" [id])) = none from
      kvGet_kvDel_self st.kv (_k (pyFormat "%s.error" [id]))]
    rfl
  unfold processing_status
  simp [h1, h2]

/-- Witness for C3 at the concrete state `c3st` (error marker set for
identifier "abc", no lock). -/
theorem C3_witness :
    kvGet c3st.kv (_k (pyFormat "%s.lock" ["abc"])) = none ∧
      kvGet c3st.kv (_k (pyFormat "%s.error" ["abc"])) = some "transcode-failed" ∧
      ((processing_status c3st "abc").1 = "transcode-failed" ∧
        (processing_status (processing_status c3st "abc").2 "abc").1 = "done") :=
  ⟨by decide, by decide,
    C3_error_marker_consumed_once c3st "abc" (by decide) (by decide)⟩

/-- C6: when the computed storage filename already exists, `upload` returns
the existing identifier with 409 and mutates none of the blob store, the
metadata records, the job queue, or the key-value markers. -/
theorem C6_duplicate_pure (st : SysState) (f : ByteSource) (fn filename e : String)
    (hres : resultingFilename f.contentType fn = .ok filename)
    (hext : extension filename = .ok e)
    (hmem : e ∈ EXTENSIONS)
    (hrl : st.debug = true ∨ st.rlExceeded (st.rlUsage + file_length f) = false)
    (hdup : storageExists st.storage
      (file_storage (pyFormat "%s.%s" [to_id (get_hash f), e])) = true) :
    ∃ st', upload st f fn = .ok (.pair (to_id (get_hash f)) 409, st') ∧
      st'.storage = st.storage ∧ st'.records = st.records ∧
      st'.queue = st.queue ∧ st'.kv = st.kv := by
  have hallow := allowed_file_true_of hext hmem
  refine ⟨rlStep st f, ?_, rlStep_storage st f, rlStep_records st f,
    rlStep_queue st f, rlStep_kv st f⟩
  rw [upload_pass hres hallow hrl]
  exact uploadStore_dup hext (by rw [rlStep_storage]; exact hdup)

/-- Witness for C6: `srcHi` re-ingested as `a.gif` against a store already
holding `storage/SfaKXIST7CwL.gif`. -/
theorem C6_witness :
    resultingFilename srcHi.contentType "a.gif" = .ok "a.gif" ∧
      extension "a.gif" = .ok "gif" ∧ "gif" ∈ EXTENSIONS ∧
      (c6st.debug = true ∨ c6st.rlExceeded (c6st.rlUsage + file_length srcHi) = false) ∧
      storageExists c6st.storage
        (file_storage (pyFormat "%s.%s" [to_id (get_hash srcHi), "gif"])) = true ∧
      (∃ st', upload c6st srcHi "a.gif" = .ok (.pair (to_id (get_hash srcHi)) 409, st') ∧
        st'.storage = c6st.storage ∧ st'.records = c6st.records ∧
        st'.queue = c6st.queue ∧ st'.kv = c6st.kv) :=
  ⟨by decide, by decide, by decide, Or.inl (by decide), by decide,
    C6_duplicate_pure c6st srcHi "a.gif" "a.gif" "gif"
      (by decide) (by decide) (by decide) (Or.inl (by decide)) (by decide)⟩

/-- C5 counterexample: the same two bytes ingested first as `a.gif` and
then as `a.png` are accepted both times under the same identifier, and the
second ingestion rewrites the metadata record (its `original` field flips
from the gif to the png storage filename), contradicting "never rewritten
by any later ingestion of the same content ... regardless of the filename
or declared content type". -/
theorem C5_counterexample :
    uploadOutcome (upload emptyDebugState srcHi "a.gif") =
      some (.single "SfaKXIST7CwL") ∧
    uploadOutcome (upload c5st1 srcHi "a.png") = some (.single "SfaKXIST7CwL") ∧
    recordLookup c5st1.records "SfaKXIST7CwL" =
      some ⟨"SfaKXIST7CwL", 2, "SfaKXIST7CwL.gif", "127.0.0.1"⟩ ∧
    recordLookup c5st2.records "SfaKXIST7CwL" =
      some ⟨"SfaKXIST7CwL", 2, "SfaKXIST7CwL.png", "127.0.0.1"⟩ :=
  ⟨by decide, by decide, by decide, by decide⟩

/-- C5 (amended): the metadata record is write-once *per resulting storage
filename*: a later ingestion of the same content whose computed storage
filename already exists leaves the records untouched (duplicate path),
while an ingestion whose computed storage filename is absent — including a
re-ingestion of the same content under a new extension — (re)writes the
record for that identifier. -/
theorem C5_record_write_once_per_filename :
    (∀ (st : SysState) (f : ByteSource) (fn filename e : String),
      resultingFilename f.contentType fn = .ok filename →
      extension filename = .ok e →
      e ∈ EXTENSIONS →
      (st.debug = true ∨ st.rlExceeded (st.rlUsage + file_length f) = false) →
      storageExists st.storage
        (file_storage (pyFormat "%s.%s" [to_id (get_hash f), e])) = true →
      ∃ st', upload st f fn = .ok (.pair (to_id (get_hash f)) 409, st') ∧
        st'.records = st.records) ∧
    (∀ (st : SysState) (f : ByteSource) (fn filename e : String),
      resultingFilename f.contentType fn = .ok filename →
      extension filename = .ok e →
      e ∈ EXTENSIONS →
      (st.debug = true ∨ st.rlExceeded (st.rlUsage + file_length f) = false) →
      storageExists st.storage
        (file_storage (pyFormat "%s.%s" [to_id (get_hash f), e])) = false →
      ∃ st', upload st f fn = .ok (.single (to_id (get_hash f)), st') ∧
        recordLookup st'.records (to_id (get_hash f)) =
          some ⟨to_id (get_hash f), (readAll (seek0 f)).length,
            pyFormat "%s.%s" [to_id (get_hash f), e], st.callerIp⟩) := by
  constructor
  · intro st f fn filename e hres hext hmem hrl hdup
    have hallow := allowed_file_true_of hext hmem
    refine ⟨rlStep st f, ?_, rlStep_records st f⟩
    rw [upload_pass hres hallow hrl]
    exact uploadStore_dup hext (by rw [rlStep_storage]; exact hdup)
  · intro st f fn filename e hres hext hmem hrl habs
    have hallow := allowed_file_true_of hext hmem
    rw [upload_pass hres hallow hrl,
      uploadStore_fresh hext (by rw [rlStep_storage]; exact habs)]
    refine ⟨_, rfl, ?_⟩
    rw [rlStep_records, rlStep_callerIp]
    exact recordLookup_recordSave_self _ _ _

/-- Witness for C5 (amended): the duplicate path at `c6st` keeps the
records; the fresh path from the empty store writes the record. -/
theorem C5_witness :
    (resultingFilename srcHi.contentType "a.gif" = .ok "a.gif" ∧
      extension "a.gif" = .ok "gif" ∧ "gif" ∈ EXTENSIONS ∧
      storageExists c6st.storage
        (file_storage (pyFormat "%s.%s" [to_id (get_hash srcHi), "gif"])) = true ∧
      (∃ st', upload c6st srcHi "a.gif" = .ok (.pair (to_id (get_hash srcHi)) 409, st') ∧
        st'.records = c6st.records)) ∧
    (storageExists emptyDebugState.storage
        (file_storage (pyFormat "%s.%s" [to_id (get_hash srcHi), "gif"])) = false ∧
      (∃ st', upload emptyDebugState srcHi "a.gif" =
          .ok (.single (to_id (get_hash srcHi)), st') ∧
        recordLookup st'.records (to_id (get_hash srcHi)) =
          some ⟨to_id (get_hash srcHi), (readAll (seek0 srcHi)).length,
            pyFormat "%s.%s" [to_id (get_hash srcHi), "gif"],
            emptyDebugState.callerIp⟩)) :=
  ⟨⟨by decide, by decide, by decide, by decide,
    C5_record_write_once_per_filename.1 c6st srcHi "a.gif" "a.gif" "gif"
      (by decide) (by decide) (by decide) (Or.inl (by decide)) (by decide)⟩,
   ⟨by decide,
    C5_record_write_once_per_filename.2 emptyDebugState srcHi "a.gif" "a.gif" "gif"
      (by decide) (by decide) (by decide) (Or.inl (by decide)) (by decide)⟩⟩

/-- `upload` propagates an exception from the content-type append step. -/
theorem upload_error_of_res {st : SysState} {f : ByteSource} {fn : String} {x : PyErr}
    (hrf : resultingFilename f.contentType fn = .error x) :
    upload st f fn = .error x := by
  simp [upload, hrf]

/-- `upload` propagates an exception from `allowed_file`. -/
theorem upload_error_of_allowed {st : SysState} {f : ByteSource} {fn filename : String}
    {x : PyErr} (hrf : resultingFilename f.contentType fn = .ok filename)
    (hal : allowed_file filename = .error x) :
    upload st f fn = .error x := by
  simp [upload, hrf, hal]

/-- C8: outside debug mode the source's byte length is recorded against
the usage counter before the limit check, and a tripped limit yields
("ratelimit", 420) with the usage already bumped and nothing else changed;
in debug mode the recording and the check are both skipped (the usage is
untouched and the outcome is independent of the limit predicate). -/
theorem C8_usage_recorded_before_check :
    (∀ (st : SysState) (f : ByteSource) (fn filename : String),
      resultingFilename f.contentType fn = .ok filename →
      allowed_file filename = .ok true →
      st.debug = false →
      st.rlExceeded (st.rlUsage + file_length f) = true →
      upload st f fn = .ok (.pair "ratelimit" 420,
        { st with rlUsage := st.rlUsage + file_length f })) ∧
    (∀ (st : SysState) (f : ByteSource) (fn : String) (g : Nat → Bool),
      st.debug = true →
      upload { st with rlExceeded := g } f fn =
        (upload st f fn).map (fun p => (p.1, { p.2 with rlExceeded := g }))) ∧
    (∀ (st : SysState) (f : ByteSource) (fn : String) (p : UploadResult × SysState),
      st.debug = true → upload st f fn = .ok p → p.2.rlUsage = st.rlUsage) := by
  refine ⟨?_, ?_, ?_⟩
  · intro st f fn filename hres hallow hdeb hexc
    simp [upload, hres, hallow, hdeb, hexc]
  · intro st f fn g hdeb
    have hdeb' : ({ st with rlExceeded := g } : SysState).debug = true := hdeb
    rcases hrf : resultingFilename f.contentType fn with x | filename
    · rw [@upload_error_of_res { st with rlExceeded := g } f fn x hrf,
        upload_error_of_res hrf]
      rfl
    · rcases hal : allowed_file filename with x | b
      · rw [@upload_error_of_allowed { st with rlExceeded := g } f fn filename x hrf hal,
          upload_error_of_allowed hrf hal]
        rfl
      · rcases b with - | -
        · rw [@upload_of_not_allowed { st with rlExceeded := g } f fn filename hrf hal,
            upload_of_not_allowed hrf hal]
          rfl
        · rw [@upload_pass { st with rlExceeded := g } f fn filename hrf hal (Or.inl hdeb'),
            upload_pass hrf hal (Or.inl hdeb)]
          have h1 : rlStep { st with rlExceeded := g } f = { st with rlExceeded := g } := by
            unfold rlStep
            exact if_pos hdeb'
          have h2 : rlStep st f = st := by
            unfold rlStep
            exact if_pos hdeb
          rw [h1, h2]
          exact uploadStore_rlExceeded_swap st f filename g
  · intro st f fn p hdeb h
    rcases hrf : resultingFilename f.contentType fn with x | filename
    · rw [upload_error_of_res hrf] at h
      cases h
    · rcases hal : allowed_file filename with x | b
      · rw [upload_error_of_allowed hrf hal] at h
        cases h
      · rcases b with - | -
        · rw [upload_of_not_allowed hrf hal] at h
          cases h
          rfl
        · rw [upload_pass hrf hal (Or.inl hdeb)] at h
          rw [uploadStore_rlUsage_eq h]
          unfold rlStep
          rw [hdeb]
          rfl

/-- Witness for C8: `srcHi` (2 bytes) against a 1-byte quota in production
mode, and the debug-mode clauses at `emptyDebugState`. -/
theorem C8_witness :
    (resultingFilename srcHi.contentType "a.gif" = .ok "a.gif" ∧
      allowed_file "a.gif" = .ok true ∧ c8st.debug = false ∧
      c8st.rlExceeded (c8st.rlUsage + file_length srcHi) = true ∧
      upload c8st srcHi "a.gif" = .ok (.pair "ratelimit" 420,
        { c8st with rlUsage := c8st.rlUsage + file_length srcHi })) ∧
    (emptyDebugState.debug = true ∧
      upload { emptyDebugState with rlExceeded := fun _ => true } srcHi "a.gif" =
        (upload emptyDebugState srcHi "a.gif").map
          (fun p => (p.1, { p.2 with rlExceeded := fun _ => true }))) :=
  ⟨⟨by decide, by decide, by decide, by decide,
    C8_usage_recorded_before_check.1 c8st srcHi "a.gif" "a.gif"
      (by decide) (by decide) (by decide) (by decide)⟩,
   ⟨by decide,
    C8_usage_recorded_before_check.2.1 emptyDebugState srcHi "a.gif"
      (fun _ => true) (by decide)⟩⟩

/-- Sanity check of the hash embedding against the RFC 1321 test vector
md5("abc"). -/
theorem md5_rfc1321_abc :
    md5 [97, 98, 99] = [0x90, 0x01, 0x50, 0x98, 0x3c, 0xd2, 0x4f, 0xb0,
      0xd6, 0x96, 0x3f, 0x7d, 0x28, 0xe1, 0x7f, 0x72] := by decide

/-- C1 (code divergence): `compression_rate` looks the *extension* of the
original filename up in `processing_needed`, whose keys are MIME types, so
for every stored item whose original carries one of the uploadable
extensions the lookup misses and the function returns 0 — never the
claimed `round(originalSize / minSize, 2)`. -/
theorem C1_compression_rate_always_zero (st : SysState) (id : String)
    (item : MediaItem) (e : String)
    (hrec : recordLookup st.records id = some item)
    (hext : extension item.original = .ok e)
    (hmem : e ∈ EXTENSIONS) :
    compression_rate st id = .ok 0 := by
  have hpn : pnLookup e = none :=
    (by decide : ∀ x ∈ EXTENSIONS, pnLookup x = none) e hmem
  simp [compression_rate, hrec, hext, hpn]

/-- Witness for C1 at the spec's scenario: a 1,000,000-byte GIF with
400,000-byte MP4 and 600,000-byte OGV renditions on disk still yields 0,
where the claim expects 2.5. -/
theorem C1_witness :
    recordLookup c1st.records "gifid" = some c1item ∧
      extension c1item.original = .ok "gif" ∧ "gif" ∈ EXTENSIONS ∧
      compression_rate c1st "gifid" = .ok 0 :=
  ⟨by decide, by decide, by decide,
    C1_compression_rate_always_zero c1st "gifid" c1item "gif"
      (by decide) (by decide) (by decide)⟩

/-- C2 (code divergence): `delete_file` never removes any blob —
`delete_file_storage` unlinks `file_storage(f)` where `f` is an undefined
name, and the bare `except` swallows the NameError — so the whole cascade
only deletes the metadata record, leaving the blob store identical. -/
theorem C2_delete_never_touches_storage (st : SysState) (item : MediaItem)
    (e : String) (hext : extension item.original = .ok e) :
    delete_file st item =
      .ok { st with records := recordDel st.records item.hash } := by
  unfold delete_file
  rw [hext]
  have hdfs : ∀ (s : SysState) (q : String), delete_file_storage s q = s :=
    fun s q => rfl
  rcases hpn : pnLookup e with - | spec
  · simp [hpn, hdfs]
  · simp only [hpn]
    have hfold := foldl_skip
      (fun (s : SysState) (f_ext : String) =>
        delete_file_storage s (pyFormat "%s.%s" [item.hash, f_ext]))
      spec.formats (delete_file_storage st item.original) (fun t x => rfl)
    rw [hfold, hdfs]

/-- Witness for C2: deleting the stored `abc.png` leaves the blob in
storage and removes only the metadata record. -/
theorem C2_witness :
    extension c2item.original = .ok "png" ∧
      storageExists c2st.storage (file_storage c2item.original) = true ∧
      delete_file c2st c2item =
        .ok { c2st with records := recordDel c2st.records c2item.hash } :=
  ⟨by decide, by decide,
    C2_delete_never_touches_storage c2st c2item "png" (by decide)⟩
